import Mathlib

/-!
Shallow embedding of a minimal reparenting X11 window manager
(`WindowManager` in `src/lib.rs`).

The manager owns a registry `clients : HashMap<Window, Window>` from client
windows to their decoration frames.  Event handlers
(`on_configure_request`, `on_map_request`, `on_unmap_notify`,
`on_button_press`) and the framing operations (`frame_window`,
`unframe_window`) are embedded as pure functions from a window-manager
state (plus an environment of X-server query replies) to a `StepResult`
recording the possible panic, the successor state, and the ordered trace
of protocol requests issued to the server.  Rust panics (`assert!`,
`Option::unwrap`, `expect`, `panic!`) become an `Option PanicKind`.
-/

namespace XcbWm

/-- X11 window handle (`xcb::Window`, a `u32` resource id). -/
abbrev Window := Nat

/-! XCB protocol constants, with the numeric values of the `xcb` crate. -/

def COPY_FROM_PARENT : Nat := 0

def WINDOW_CLASS_INPUT_OUTPUT : Nat := 1

def CW_BACK_PIXEL : Nat := 2

def CW_BORDER_PIXEL : Nat := 8

def CW_EVENT_MASK : Nat := 2048

def EVENT_MASK_SUBSTRUCTURE_NOTIFY : Nat := 524288

def EVENT_MASK_SUBSTRUCTURE_REDIRECT : Nat := 1048576

def EVENT_MASK_BUTTON_PRESS : Nat := 4

def EVENT_MASK_BUTTON_RELEASE : Nat := 8

def EVENT_MASK_BUTTON_MOTION : Nat := 8192

def GRAB_MODE_ASYNC : Nat := 1

def NONE : Nat := 0

def BUTTON_INDEX_1 : Nat := 1

def BUTTON_INDEX_3 : Nat := 3

def MOD_MASK_1 : Nat := 8

def SET_MODE_INSERT : Nat := 0

def SET_MODE_DELETE : Nat := 1

def MAP_STATE_VIEWABLE : Nat := 2

def CONFIG_WINDOW_X : Nat := 1

def CONFIG_WINDOW_Y : Nat := 2

def CONFIG_WINDOW_WIDTH : Nat := 4

def CONFIG_WINDOW_HEIGHT : Nat := 8

def CONFIG_WINDOW_BORDER_WIDTH : Nat := 16

def CONFIG_WINDOW_SIBLING : Nat := 32

def CONFIG_WINDOW_STACK_MODE : Nat := 64

/-- Rust `as u32` on a (sign-extended) signed value: two's-complement
reinterpretation modulo 2^32. -/
def toU32 (i : Int) : Nat := (i % 4294967296).toNat

/-- Reply of `xcb::get_geometry` (`x`, `y` are `i16`; sizes are `u16`). -/
structure Geometry where
  x : Int
  y : Int
  width : Nat
  height : Nat
deriving DecidableEq, Repr

/-- Reply of `xcb::get_window_attributes`: the two fields the manager reads. -/
structure WindowAttributes where
  override_redirect : Bool
  map_state : Nat
deriving DecidableEq, Repr

/-- Environment of X-server answers to the queries the manager performs:
geometry and attribute replies per window, the next id produced by
`Connection::generate_id`, and the keycodes resolved for the `F4` and `Tab`
keysyms (`none` models a resolution miss). -/
structure XEnv where
  geometry : Window → Geometry
  attributes : Window → WindowAttributes
  nextId : Window
  keycodeF4 : Option Nat
  keycodeTab : Option Nat

/-- A protocol request issued to the X server, in issue order. -/
inductive Request where
  | createWindow (depth : Nat) (wid : Window) (parent : Window)
      (x y : Int) (width height : Nat) (borderWidth : Nat)
      (winClass : Nat) (visual : Nat) (values : List (Nat × Nat))
  | configureWindow (target : Window) (values : List (Nat × Nat))
  | changeWindowAttributes (target : Window) (values : List (Nat × Nat))
  | changeSaveSet (mode : Nat) (window : Window)
  | reparentWindow (window : Window) (parent : Window) (x y : Int)
  | mapWindow (window : Window)
  | unmapWindow (window : Window)
  | destroyWindow (window : Window)
  | grabButton (ownerEvents : Bool) (grabWindow : Window) (eventMask : Nat)
      (pointerMode keyboardMode : Nat) (confineTo cursor : Window)
      (button : Nat) (modifiers : Nat)
  | grabKey (ownerEvents : Bool) (grabWindow : Window) (modifiers : Nat)
      (key : Nat) (pointerMode keyboardMode : Nat)
deriving DecidableEq, Repr

/-- The ways the Rust code can abort the process inside a handler. -/
inductive PanicKind where
  | assertionFailed
  | unwrapNone
  | expectCouldNotRetrieveWindow
  | expectCouldNotGetFrame
  | couldNotResolveKeysym
deriving DecidableEq, Repr

/-- The registry `clients : HashMap<xcb::Window, xcb::Window>`, modelled as an
association list with unique keys (order of entries immaterial). -/
abbrev ClientMap := List (Window × Window)

/-- `HashMap::contains_key`. -/
def contains_key : ClientMap → Window → Bool
  | [], _ => false
  | p :: t, k => p.1 == k || contains_key t k

/-- `HashMap::get`. -/
def hashmap_get : ClientMap → Window → Option Window
  | [], _ => none
  | p :: t, k => if p.1 == k then some p.2 else hashmap_get t k

/-- `HashMap::remove` (dropping the returned old value, as the source does). -/
def hashmap_remove : ClientMap → Window → ClientMap
  | [], _ => []
  | p :: t, k => if p.1 == k then hashmap_remove t k else p :: hashmap_remove t k

/-- `HashMap::insert`: stores the binding and returns the PREVIOUS value at
that key (`none` when the key was absent). -/
def hashmap_insert (m : ClientMap) (k v : Window) : Option Window × ClientMap :=
  (hashmap_get m k, (k, v) :: hashmap_remove m k)

/-- The framing state engine: root window plus the client-to-frame registry
(the live `connection` is factored into `XEnv` and the request trace). -/
structure WindowManager where
  root : Window
  clients : ClientMap
deriving DecidableEq, Repr

/-- Outcome of one handler run: panic (if any), successor state, and the
ordered protocol requests issued before returning or panicking. -/
structure StepResult where
  panic : Option PanicKind
  wm : WindowManager
  trace : List Request
deriving DecidableEq, Repr

/-- `xcb::ConfigureRequestEvent`: the fields the handler reads
(`x`, `y` are `i16`; `width`, `height`, `border_width` are `u16`;
`sibling` is a window id; `stack_mode` is `u8`). -/
structure ConfigureRequestEvent where
  window : Window
  x : Int
  y : Int
  width : Nat
  height : Nat
  border_width : Nat
  sibling : Window
  stack_mode : Nat
deriving DecidableEq, Repr

/-- `xcb::MapRequestEvent`: the field the handler reads. -/
structure MapRequestEvent where
  window : Window
deriving DecidableEq, Repr

/-- `xcb::UnmapNotifyEvent`: the fields the handler reads. -/
structure UnmapNotifyEvent where
  event : Window
  window : Window
deriving DecidableEq, Repr

/-- `xcb::ButtonPressEvent` (opaque to the stub handler). -/
structure ButtonPressEvent where
  event : Window
deriving DecidableEq, Repr

/-- The `value_list` built at the top of `on_configure_request`, lib.rs
lines 83-97: the seven `(mask, value)` pairs taken verbatim from the event
(`x`/`y` cast `as u32`, the rest widened unchanged). -/
def configure_value_list (e : ConfigureRequestEvent) : List (Nat × Nat) :=
  [ (CONFIG_WINDOW_X, toU32 e.x),
    (CONFIG_WINDOW_Y, toU32 e.y),
    (CONFIG_WINDOW_WIDTH, e.width),
    (CONFIG_WINDOW_HEIGHT, e.height),
    (CONFIG_WINDOW_BORDER_WIDTH, e.border_width),
    (CONFIG_WINDOW_SIBLING, e.sibling),
    (CONFIG_WINDOW_STACK_MODE, e.stack_mode) ]

/-- `WindowManager::on_configure_request`, lib.rs lines 81-110: if the
window is registered, configure its frame with the value list; then
configure `self.root` (the root window) with the same list.  The handler
takes `&self` and cannot mutate the registry. -/
def on_configure_request (wm : WindowManager) (e : ConfigureRequestEvent) :
    StepResult :=
  let value_list := configure_value_list e
  if contains_key wm.clients e.window then
    match hashmap_get wm.clients e.window with
    | some frame =>
        { panic := none, wm := wm,
          trace := [ Request.configureWindow frame value_list,
                     Request.configureWindow wm.root value_list ] }
    | none =>
        { panic := some PanicKind.expectCouldNotRetrieveWindow,
          wm := wm, trace := [] }
  else
    { panic := none, wm := wm,
      trace := [ Request.configureWindow wm.root value_list ] }

/-- The six requests `frame_window` issues between the startup filter and
the registry insertion, lib.rs lines 131-177: create the frame at the
client's geometry with border width 4, push the colour pairs through
`configure_window` (sic), register substructure redirect/notify on the
frame, add the client to the save set, reparent it into the frame at
(0,0), and map the frame. -/
def framing_requests (env : XEnv) (root : Window) (window : Window) :
    List Request :=
  let border_width := 4
  let border_color := 0xff0000
  let bg_color := 0x0000ff
  let wid := env.nextId
  let geo := env.geometry window
  [ Request.createWindow COPY_FROM_PARENT wid root geo.x geo.y
      geo.width geo.height border_width WINDOW_CLASS_INPUT_OUTPUT
      COPY_FROM_PARENT [],
    Request.configureWindow wid
      [(CW_BORDER_PIXEL, border_color), (CW_BACK_PIXEL, bg_color)],
    Request.changeWindowAttributes wid
      [(CW_EVENT_MASK,
        EVENT_MASK_SUBSTRUCTURE_NOTIFY ||| EVENT_MASK_SUBSTRUCTURE_REDIRECT)],
    Request.changeSaveSet SET_MODE_INSERT window,
    Request.reparentWindow window wid 0 0,
    Request.mapWindow wid ]

/-- The input grabs of lib.rs lines 181-241 (mod1+button1 move,
mod1+button3 resize, mod1+F4 close, mod1+Tab switch); a keysym that fails
to resolve panics after the grabs already issued. -/
def grab_requests (env : XEnv) (window : Window) :
    Option PanicKind × List Request :=
  let buttonMask :=
    EVENT_MASK_BUTTON_PRESS ||| EVENT_MASK_BUTTON_RELEASE |||
      EVENT_MASK_BUTTON_MOTION
  let gb1 := Request.grabButton false window buttonMask GRAB_MODE_ASYNC
    GRAB_MODE_ASYNC NONE NONE BUTTON_INDEX_1 MOD_MASK_1
  let gb3 := Request.grabButton false window buttonMask GRAB_MODE_ASYNC
    GRAB_MODE_ASYNC NONE NONE BUTTON_INDEX_3 MOD_MASK_1
  match env.keycodeF4 with
  | none => (some PanicKind.couldNotResolveKeysym, [gb1, gb3])
  | some kF4 =>
    match env.keycodeTab with
    | none =>
        (some PanicKind.couldNotResolveKeysym,
          [gb1, gb3,
           Request.grabKey false window MOD_MASK_1 kF4 GRAB_MODE_ASYNC
             GRAB_MODE_ASYNC])
    | some kTab =>
        (none,
          [gb1, gb3,
           Request.grabKey false window MOD_MASK_1 kF4 GRAB_MODE_ASYNC
             GRAB_MODE_ASYNC,
           Request.grabKey false window MOD_MASK_1 kTab GRAB_MODE_ASYNC
             GRAB_MODE_ASYNC])

/-- `WindowManager::frame_window`, lib.rs lines 117-242.
`assert!(!self.clients.contains_key(&window))` panics on a registered
window.  With `created_before_wm` the attributes are queried and
override-redirect or non-viewable windows are skipped.  Otherwise the six
framing requests are issued and then line 179 runs
`self.clients.insert(window, wid).unwrap()`: `insert` yields the previous
value at the key, so the `unwrap` panics exactly when the key was absent,
and only a pre-existing value (impossible after the assert) would reach
the grab registrations. -/
def frame_window (env : XEnv) (wm : WindowManager) (window : Window)
    (created_before_wm : Bool) : StepResult :=
  if contains_key wm.clients window then
    { panic := some PanicKind.assertionFailed, wm := wm, trace := [] }
  else if created_before_wm &&
      ((env.attributes window).override_redirect ||
        (env.attributes window).map_state != MAP_STATE_VIEWABLE) then
    { panic := none, wm := wm, trace := [] }
  else
    let reqs := framing_requests env wm.root window
    let inserted := hashmap_insert wm.clients window env.nextId
    match inserted.1 with
    | none =>
        { panic := some PanicKind.unwrapNone,
          wm := { wm with clients := inserted.2 }, trace := reqs }
    | some _ =>
        let grabs := grab_requests env window
        { panic := grabs.1,
          wm := { wm with clients := inserted.2 },
          trace := reqs ++ grabs.2 }

/-- `WindowManager::on_map_request`, lib.rs lines 112-115: frame the
event's window with `created_before_wm = false`, then map the original
client window — the map is reached only if `frame_window` returns. -/
def on_map_request (env : XEnv) (wm : WindowManager) (e : MapRequestEvent) :
    StepResult :=
  let r := frame_window env wm e.window false
  match r.panic with
  | some _ => r
  | none => { r with trace := r.trace ++ [Request.mapWindow e.window] }

/-- `WindowManager::unframe_window`, lib.rs lines 254-269: look up the
frame (`expect` panics if absent), unmap it, reparent the client to the
root at (0,0), delete the client from the save set, destroy the frame,
and remove the registry entry. -/
def unframe_window (wm : WindowManager) (window : Window) : StepResult :=
  match hashmap_get wm.clients window with
  | none =>
      { panic := some PanicKind.expectCouldNotGetFrame, wm := wm, trace := [] }
  | some frame =>
      { panic := none,
        wm := { wm with clients := hashmap_remove wm.clients window },
        trace := [ Request.unmapWindow frame,
                   Request.reparentWindow window wm.root 0 0,
                   Request.changeSaveSet SET_MODE_DELETE window,
                   Request.destroyWindow frame ] }

/-- `WindowManager::on_unmap_notify`, lib.rs lines 244-252: return if the
window is unregistered, return if the event window is the root, otherwise
unframe the window. -/
def on_unmap_notify (wm : WindowManager) (e : UnmapNotifyEvent) : StepResult :=
  if !contains_key wm.clients e.window then
    { panic := none, wm := wm, trace := [] }
  else if e.event == wm.root then
    { panic := none, wm := wm, trace := [] }
  else
    unframe_window wm e.window

/-- `WindowManager::on_button_press`, lib.rs lines 271-273: an empty body
on `&self`. -/
def on_button_press (wm : WindowManager) (_e : ButtonPressEvent) : StepResult :=
  { panic := none, wm := wm, trace := [] }

/-- A concrete geometry reply, for instantiating universally quantified
theorems at witnesses. -/
def sampleGeometry : Geometry := { x := 10, y := 20, width := 300, height := 200 }

/-- A concrete server environment: viewable, non-override-redirect windows,
fresh id 100, both keysyms resolved. -/
def sampleEnv : XEnv :=
  { geometry := fun _ => sampleGeometry,
    attributes := fun _ =>
      { override_redirect := false, map_state := MAP_STATE_VIEWABLE },
    nextId := 100,
    keycodeF4 := some 70,
    keycodeTab := some 23 }

/-- Same environment, but every window reports override-redirect. -/
def sampleEnvOverride : XEnv :=
  { sampleEnv with
    attributes := fun _ =>
      { override_redirect := true, map_state := MAP_STATE_VIEWABLE } }

/-- A concrete configure-request event for window 5. -/
def sampleConfigureEvent : ConfigureRequestEvent :=
  { window := 5, x := 10, y := 20, width := 300, height := 200,
    border_width := 1, sibling := 0, stack_mode := 0 }

/-! Association-list lemmas relating `contains_key`, `hashmap_get` and
`hashmap_remove`. -/

theorem hashmap_get_eq_none_of_not_contains (m : ClientMap) (k : Window) :
    contains_key m k = false → hashmap_get m k = none := by
  induction m with
  | nil => intro _; rfl
  | cons p t ih =>
    intro h
    simp only [contains_key, Bool.or_eq_false_iff] at h
    simp [hashmap_get, h.1, ih h.2]

theorem contains_key_of_hashmap_get (m : ClientMap) (k f : Window) :
    hashmap_get m k = some f → contains_key m k = true := by
  induction m with
  | nil => intro h; simp [hashmap_get] at h
  | cons p t ih =>
    intro h
    simp only [hashmap_get] at h
    simp only [contains_key, Bool.or_eq_true]
    by_cases hp : (p.1 == k) = true
    · exact Or.inl hp
    · exact Or.inr (ih (by simpa [hp] using h))

theorem contains_key_hashmap_remove_self (m : ClientMap) (k : Window) :
    contains_key (hashmap_remove m k) k = false := by
  induction m with
  | nil => rfl
  | cons p t ih =>
    by_cases hp : (p.1 == k) = true
    · simp [hashmap_remove, hp, ih]
    · have hp' : (p.1 == k) = false := Bool.eq_false_iff.mpr hp
      simp [hashmap_remove, hp', contains_key, ih]

/-- C1 [code_bug]: the claim says that when the precondition holds (the
window is not yet registered) and the startup filter is not taken, step
9's registry insertion completes without a fatal error.  The code instead
runs `self.clients.insert(window, wid).unwrap()`; `HashMap::insert`
returns the PREVIOUS value at the key, which is `None` precisely because
the precondition held, so the `unwrap` panics on every such call: the
fatal branch is always reached, not unreachable. -/
theorem frame_window_insert_unwrap_panics
    (env : XEnv) (wm : WindowManager) (window : Window)
    (created_before_wm : Bool)
    (hreg : contains_key wm.clients window = false)
    (hfilter : created_before_wm = true →
      (env.attributes window).override_redirect = false ∧
      (env.attributes window).map_state = MAP_STATE_VIEWABLE) :
    (frame_window env wm window created_before_wm).panic =
      some PanicKind.unwrapNone := by
  have hget := hashmap_get_eq_none_of_not_contains wm.clients window hreg
  cases created_before_wm with
  | false => simp [frame_window, hreg, hashmap_insert, hget]
  | true =>
    obtain ⟨h1, h2⟩ := hfilter rfl
    simp [frame_window, hreg, h1, h2, hashmap_insert, hget]

/-- Witness for C1: framing the unregistered window 5 in an empty registry
panics at the insertion's `unwrap`. -/
theorem frame_window_insert_unwrap_panics_witness :
    (frame_window sampleEnv { root := 1, clients := [] } 5 false).panic =
      some PanicKind.unwrapNone :=
  frame_window_insert_unwrap_panics sampleEnv { root := 1, clients := [] } 5
    false (by decide) (by decide)

/-- C2 [code_bug]: the claim says the requested values are applied
verbatim to the requesting window itself.  The handler instead issues its
unconditional `configure_window` against `self.root`, so for an
unregistered window the sole request of the handler targets the root
window, the registry is untouched, and (whenever the requesting window is
not the root) no request of the handler targets the requesting window at
all. -/
theorem on_configure_request_unregistered_targets_root
    (wm : WindowManager) (e : ConfigureRequestEvent)
    (hreg : contains_key wm.clients e.window = false) :
    (on_configure_request wm e).trace =
      [Request.configureWindow wm.root (configure_value_list e)] ∧
    (on_configure_request wm e).wm = wm ∧
    (e.window ≠ wm.root → ∀ vs : List (Nat × Nat),
      Request.configureWindow e.window vs ∉ (on_configure_request wm e).trace) := by
  refine ⟨by simp [on_configure_request, hreg], by simp [on_configure_request, hreg], ?_⟩
  intro hne vs hmem
  simp [on_configure_request, hreg] at hmem
  exact hne hmem.1

/-- Witness for C2: a configure request for the unregistered window 5
(root is 1) produces exactly one request, aimed at the root, and none
aimed at window 5. -/
theorem on_configure_request_unregistered_targets_root_witness :
    (on_configure_request { root := 1, clients := [] }
        sampleConfigureEvent).trace =
      [Request.configureWindow 1 (configure_value_list sampleConfigureEvent)] ∧
    Request.configureWindow 5 (configure_value_list sampleConfigureEvent) ∉
      (on_configure_request { root := 1, clients := [] }
        sampleConfigureEvent).trace :=
  ⟨(on_configure_request_unregistered_targets_root
      { root := 1, clients := [] } sampleConfigureEvent (by decide)).1,
   (on_configure_request_unregistered_targets_root
      { root := 1, clients := [] } sampleConfigureEvent (by decide)).2.2
      (by decide) _⟩

/-- C7 [confirmed]: framing a window that is already a key in the registry
fails fatally at the `assert!` invariant check, with the registry (indeed
the whole state) unchanged and no request issued — the existing entry is
never silently overwritten. -/
theorem frame_window_double_registration_fatal
    (env : XEnv) (wm : WindowManager) (window : Window)
    (created_before_wm : Bool)
    (hreg : contains_key wm.clients window = true) :
    frame_window env wm window created_before_wm =
      { panic := some PanicKind.assertionFailed, wm := wm, trace := [] } := by
  simp [frame_window, hreg]

/-- Witness for C7: re-framing the registered window 5 panics at the
assertion and leaves the registry entry (5, 100) in place. -/
theorem frame_window_double_registration_fatal_witness :
    frame_window sampleEnv { root := 1, clients := [(5, 100)] } 5 false =
      { panic := some PanicKind.assertionFailed,
        wm := { root := 1, clients := [(5, 100)] }, trace := [] } :=
  frame_window_double_registration_fatal sampleEnv
    { root := 1, clients := [(5, 100)] } 5 false (by decide)

/-- C3 [code_bug]: the claim says a map request for an unregistered window
frames it and then maps the original client window.  Because
`frame_window` panics at the insertion's `unwrap` (see C1), the handler
dies inside `frame_window` and the `map_window` of the client on line 114
is never reached: the client window is never mapped (the only map in the
trace is of the freshly allocated frame id). -/
theorem on_map_request_never_maps_client
    (env : XEnv) (wm : WindowManager) (e : MapRequestEvent)
    (hreg : contains_key wm.clients e.window = false)
    (hid : env.nextId ≠ e.window) :
    (on_map_request env wm e).panic = some PanicKind.unwrapNone ∧
    Request.mapWindow e.window ∉ (on_map_request env wm e).trace := by
  have hget := hashmap_get_eq_none_of_not_contains wm.clients e.window hreg
  constructor
  · simp [on_map_request, frame_window, hreg, hashmap_insert, hget]
  · intro hmem
    simp [on_map_request, frame_window, hreg, hashmap_insert, hget,
      framing_requests] at hmem
    exact hid hmem.symm

/-- Witness for C3: a map request for the unregistered window 5 panics at
the `unwrap` and window 5 is never mapped. -/
theorem on_map_request_never_maps_client_witness :
    (on_map_request sampleEnv { root := 1, clients := [] }
        { window := 5 }).panic = some PanicKind.unwrapNone ∧
    Request.mapWindow 5 ∉
      (on_map_request sampleEnv { root := 1, clients := [] }
        { window := 5 }).trace :=
  on_map_request_never_maps_client sampleEnv { root := 1, clients := [] }
    { window := 5 } (by decide) (by decide)

/-- C4 [confirmed]: an unmap notification for an unregistered window, or
one whose event window is the root, is dropped (state unchanged, no
request, no unframe); otherwise the handler is exactly `unframe_window`
on the target. -/
theorem on_unmap_notify_filters (wm : WindowManager) (e : UnmapNotifyEvent) :
    ((contains_key wm.clients e.window = false ∨ e.event = wm.root) →
      on_unmap_notify wm e = { panic := none, wm := wm, trace := [] }) ∧
    (contains_key wm.clients e.window = true → e.event ≠ wm.root →
      on_unmap_notify wm e = unframe_window wm e.window) := by
  constructor
  · rintro (h | h)
    · simp [on_unmap_notify, h]
    · by_cases hc : contains_key wm.clients e.window = true
      · simp [on_unmap_notify, hc, h]
      · simp [on_unmap_notify, Bool.eq_false_iff.mpr hc]
  · intro hc hne
    simp [on_unmap_notify, hc, beq_iff_eq, hne]

/-- Witness for C4: with root 1 and registry {5 ↦ 100}, an unmap notify
for the unregistered window 7 is dropped, one whose event window is the
root is dropped even though its target 5 is registered, and one from
event window 7 for target 5 runs `unframe_window`. -/
theorem on_unmap_notify_filters_witness :
    on_unmap_notify { root := 1, clients := [(5, 100)] }
        { event := 2, window := 7 } =
      { panic := none, wm := { root := 1, clients := [(5, 100)] },
        trace := [] } ∧
    on_unmap_notify { root := 1, clients := [(5, 100)] }
        { event := 1, window := 5 } =
      { panic := none, wm := { root := 1, clients := [(5, 100)] },
        trace := [] } ∧
    on_unmap_notify { root := 1, clients := [(5, 100)] }
        { event := 7, window := 5 } =
      unframe_window { root := 1, clients := [(5, 100)] } 5 :=
  ⟨(on_unmap_notify_filters { root := 1, clients := [(5, 100)] }
      { event := 2, window := 7 }).1 (Or.inl (by decide)),
   (on_unmap_notify_filters { root := 1, clients := [(5, 100)] }
      { event := 1, window := 5 }).1 (Or.inr (by decide)),
   (on_unmap_notify_filters { root := 1, clients := [(5, 100)] }
      { event := 7, window := 5 }).2 (by decide) (by decide)⟩

/-- C5 [confirmed]: for a registered window, `unframe_window` issues
exactly, in order: unmap the frame, reparent the client to the root at
(0,0), delete the client from the save set, destroy the frame — so the
client is reparented out before the frame is destroyed — and the
successor state is the registry with the window's entry removed. -/
theorem unframe_window_sequence
    (wm : WindowManager) (window frame : Window)
    (hget : hashmap_get wm.clients window = some frame) :
    unframe_window wm window =
      { panic := none,
        wm := { root := wm.root,
                clients := hashmap_remove wm.clients window },
        trace := [ Request.unmapWindow frame,
                   Request.reparentWindow window wm.root 0 0,
                   Request.changeSaveSet SET_MODE_DELETE window,
                   Request.destroyWindow frame ] } ∧
    contains_key (unframe_window wm window).wm.clients window = false := by
  refine ⟨by simp [unframe_window, hget], ?_⟩
  simp [unframe_window, hget, contains_key_hashmap_remove_self]

/-- Witness for C5: unframing the registered window 5 (frame 100, root 1)
issues the four teardown requests in order and empties the registry. -/
theorem unframe_window_sequence_witness :
    unframe_window { root := 1, clients := [(5, 100)] } 5 =
      { panic := none,
        wm := { root := 1, clients := hashmap_remove [(5, 100)] 5 },
        trace := [ Request.unmapWindow 100,
                   Request.reparentWindow 5 1 0 0,
                   Request.changeSaveSet SET_MODE_DELETE 5,
                   Request.destroyWindow 100 ] } ∧
    contains_key (unframe_window { root := 1, clients := [(5, 100)] } 5).wm.clients
        5 = false :=
  unframe_window_sequence { root := 1, clients := [(5, 100)] } 5 100 (by decide)

/-- C6 [confirmed]: framing with `created_before_wm = true` an
unregistered window whose attributes report override-redirect or a
non-viewable map state returns with the state unchanged and an empty
request trace; and with `created_before_wm = false` the result never
depends on the attribute reply — the filter is skipped entirely. -/
theorem frame_window_startup_filter :
    (∀ (env : XEnv) (wm : WindowManager) (window : Window),
      contains_key wm.clients window = false →
      ((env.attributes window).override_redirect = true ∨
        (env.attributes window).map_state ≠ MAP_STATE_VIEWABLE) →
      frame_window env wm window true =
        { panic := none, wm := wm, trace := [] }) ∧
    (∀ (env1 env2 : XEnv) (wm : WindowManager) (window : Window),
      env1.geometry window = env2.geometry window →
      env1.nextId = env2.nextId →
      env1.keycodeF4 = env2.keycodeF4 →
      env1.keycodeTab = env2.keycodeTab →
      frame_window env1 wm window false = frame_window env2 wm window false) := by
  constructor
  · intro env wm window hreg hfilter
    rcases hfilter with h | h
    · simp [frame_window, hreg, h]
    · have hb : ((env.attributes window).map_state != MAP_STATE_VIEWABLE) = true :=
        bne_iff_ne.mpr h
      simp [frame_window, hreg, hb]
  · intro env1 env2 wm window hgeo hid hF4 hTab
    by_cases hc : contains_key wm.clients window = true
    · simp [frame_window, hc]
    · have hc' : contains_key wm.clients window = false := Bool.eq_false_iff.mpr hc
      simp only [frame_window, hc', Bool.false_eq_true, if_false, Bool.false_and,
        framing_requests, grab_requests, hashmap_insert, hgeo, hid, hF4, hTab]

/-- Witness for C6: the override-redirect window 5 is skipped during the
startup sweep, and a live framing of window 5 gives the same result under
the override-redirect environment as under the plain one. -/
theorem frame_window_startup_filter_witness :
    frame_window sampleEnvOverride { root := 1, clients := [] } 5 true =
      { panic := none, wm := { root := 1, clients := [] }, trace := [] } ∧
    frame_window sampleEnvOverride { root := 1, clients := [] } 5 false =
      frame_window sampleEnv { root := 1, clients := [] } 5 false :=
  ⟨frame_window_startup_filter.1 sampleEnvOverride
      { root := 1, clients := [] } 5 (by decide) (Or.inl (by decide)),
   frame_window_startup_filter.2 sampleEnvOverride sampleEnv
      { root := 1, clients := [] } 5 rfl rfl rfl rfl⟩

/-- C8 [code_bug]: the claim says the frame is created at the client's
geometry with border width 4 and depth/visual copy-from-parent (which
holds) and that its border/background colours are then set via an
attribute-setting operation.  The code instead passes the colour pairs to
`xcb::configure_window` — the second request of the framing sequence is a
configure-window request carrying `(CW_BORDER_PIXEL, red)` and
`(CW_BACK_PIXEL, blue)` — and the only change-window-attributes request
in the whole sequence carries the event mask, never the colours. -/
theorem frame_window_colors_via_configure
    (env : XEnv) (wm : WindowManager) (window : Window)
    (created_before_wm : Bool)
    (hreg : contains_key wm.clients window = false)
    (hfilter : created_before_wm = true →
      (env.attributes window).override_redirect = false ∧
      (env.attributes window).map_state = MAP_STATE_VIEWABLE) :
    (frame_window env wm window created_before_wm).trace.take 2 =
      [ Request.createWindow COPY_FROM_PARENT env.nextId wm.root
          (env.geometry window).x (env.geometry window).y
          (env.geometry window).width (env.geometry window).height 4
          WINDOW_CLASS_INPUT_OUTPUT COPY_FROM_PARENT [],
        Request.configureWindow env.nextId
          [(CW_BORDER_PIXEL, 0xff0000), (CW_BACK_PIXEL, 0x0000ff)] ] ∧
    (∀ (t : Window) (vs : List (Nat × Nat)),
      Request.changeWindowAttributes t vs ∈
          (frame_window env wm window created_before_wm).trace →
      vs = [(CW_EVENT_MASK,
        EVENT_MASK_SUBSTRUCTURE_NOTIFY ||| EVENT_MASK_SUBSTRUCTURE_REDIRECT)]) := by
  have hget := hashmap_get_eq_none_of_not_contains wm.clients window hreg
  have htrace : (frame_window env wm window created_before_wm).trace =
      framing_requests env wm.root window := by
    cases created_before_wm with
    | false => simp [frame_window, hreg, hashmap_insert, hget]
    | true =>
      obtain ⟨h1, h2⟩ := hfilter rfl
      simp [frame_window, hreg, h1, h2, hashmap_insert, hget]
  constructor
  · rw [htrace]; rfl
  · intro t vs hmem
    rw [htrace] at hmem
    simp [framing_requests] at hmem
    exact hmem.2

/-- Witness for C8: framing window 5 live creates the frame at geometry
(10, 20, 300, 200) with border width 4 and pushes the colour pairs
through a configure-window request. -/
theorem frame_window_colors_via_configure_witness :
    (frame_window sampleEnv { root := 1, clients := [] } 5 false).trace.take 2 =
      [ Request.createWindow COPY_FROM_PARENT 100 1
          sampleGeometry.x sampleGeometry.y
          sampleGeometry.width sampleGeometry.height 4
          WINDOW_CLASS_INPUT_OUTPUT COPY_FROM_PARENT [],
        Request.configureWindow 100
          [(CW_BORDER_PIXEL, 0xff0000), (CW_BACK_PIXEL, 0x0000ff)] ] :=
  (frame_window_colors_via_configure sampleEnv { root := 1, clients := [] } 5
    false (by decide) (by decide)).1

/-- C9 [confirmed]: a configure request whose window is registered issues
the configure of the frame with the identical value list (and then the
handler's unconditional root-directed configure), panics never, and
leaves the state unchanged. -/
theorem on_configure_request_registered_mirrors_frame
    (wm : WindowManager) (e : ConfigureRequestEvent) (frame : Window)
    (hget : hashmap_get wm.clients e.window = some frame) :
    on_configure_request wm e =
      { panic := none, wm := wm,
        trace := [ Request.configureWindow frame (configure_value_list e),
                   Request.configureWindow wm.root (configure_value_list e) ] } := by
  have hc := contains_key_of_hashmap_get wm.clients e.window frame hget
  simp [on_configure_request, hc, hget]

/-- Witness for C9: with registry {5 ↦ 100}, the configure request for
window 5 configures frame 100 with the identical value list. -/
theorem on_configure_request_registered_mirrors_frame_witness :
    on_configure_request { root := 1, clients := [(5, 100)] }
        sampleConfigureEvent =
      { panic := none, wm := { root := 1, clients := [(5, 100)] },
        trace := [ Request.configureWindow 100
                     (configure_value_list sampleConfigureEvent),
                   Request.configureWindow 1
                     (configure_value_list sampleConfigureEvent) ] } :=
  on_configure_request_registered_mirrors_frame
    { root := 1, clients := [(5, 100)] } sampleConfigureEvent 100 (by decide)

/-- C10 [confirmed]: the button-press handler issues no protocol request,
keeps the state unchanged, and cannot panic. -/
theorem on_button_press_is_noop (wm : WindowManager) (e : ButtonPressEvent) :
    on_button_press wm e = { panic := none, wm := wm, trace := [] } := rfl

end XcbWm
